import Mathlib

/-!
# Verification of the embed resolver of `scraper.py`

A shallow embedding of `resolve_embed_to_direct` (src/scraper.py, lines
211-503).  Python strings are modelled as Lean `String`; the substring
operator `in`, `str.startswith`, `str.endswith` and `str.lower` are
re-implemented over `List Char` below.  The HTTP client together with the
`re` / BeautifulSoup libraries are external collaborators: a fetch oracle
`Fetch` maps a URL to either an exception (`Except.error`) or a `Response`
carrying the HTTP status and the parsed/extracted views of the body that
the Python code inspects (first `<video>` tag, `<iframe>` list, script
texts with their regex-match results, `data-*` attributes, `.m3u8`
anchors, and the provider-specific regex matches).

The resolver is embedded as a fuel-indexed function; the fuel is
`max_depth.toNat`, matching the `max_depth <= 0` guard and the
`max_depth - 1` recursive calls of the source.  The result of a call is a
pair of the Python outcome (`Except.error` would mean an uncaught
exception; `Except.ok v` a returned `Optional[str]`) and the ordered list
of URLs passed to `client.get` during the call.
-/

/-- Python `p.startswith(t)` on character lists: `t` is a prefix of `s`. -/
def listPre : List Char → List Char → Bool
  | [], _ => true
  | _ :: _, [] => false
  | a :: as, b :: bs => a == b && listPre as bs

/-- Python `t in s` on character lists: `t` occurs as a contiguous substring. -/
def listSub (t : List Char) : List Char → Bool
  | [] => listPre t []
  | c :: rest => listPre t (c :: rest) || listSub t rest

/-- Python `s.endswith(t)` on character lists: `t` equals some tail of `s`. -/
def listSuf (t : List Char) : List Char → Bool
  | [] => listPre t []
  | c :: rest => (t == c :: rest) || listSuf t rest

/-- Python `s.startswith(p)`. -/
def pyStarts (s p : String) : Bool := listPre p.data s.data

/-- Python `t in s` (substring test). -/
def pyIn (t s : String) : Bool := listSub t.data s.data

/-- Python `s.endswith(t)`. -/
def pyEnds (s t : String) : Bool := listSuf t.data s.data

/-- Python `any(tok in s for tok in toks)`. -/
def pyInAny (s : String) (toks : List String) : Bool :=
  toks.any (fun t => pyIn t s)

/-- Python `s.lower()` (ASCII case folding, as used on URLs). -/
def lowerStr (s : String) : String := ⟨s.data.map Char.toLower⟩

/-- Python `a or b` on two optional strings (`None` and `""` are falsy). -/
def pyOr (a b : Option String) : Option String :=
  match a with
  | some s => if s.data.isEmpty then b else some s
  | none => b

/-- Python truthiness of an optional string: `if x:` succeeds only for a
nonempty string; the result is `some` of it, and `none` otherwise. -/
def pyTruthy (a : Option String) : Option String :=
  match a with
  | some s => if s.data.isEmpty then none else some s
  | none => none

/-- Embeds `if url.startswith('//'): url = 'https:' + url` (lines 247-248 etc.). -/
def normProtoRel (s : String) : String :=
  if pyStarts s "//" then "https:" ++ s else s

/-- Embeds `'/'.join(embed_url.split('/')[:3])` (lines 380, 393, 406, 482). -/
def baseOf (u : String) : String :=
  String.intercalate "/" ((u.splitOn "/").take 3)

/-- The `//`- and `/`-relative normalization used in the standard section
(lines 377-381, 390-394, 403-407, 479-483). -/
def resolveRel (base s : String) : String :=
  if pyStarts s "//" then "https:" ++ s
  else if pyStarts s "/" then baseOf base ++ s
  else s

/-! ## The constant string tables of the source -/

/-- Table `non_video_extensions` (line 224). -/
def non_video_extensions : List String :=
  [".css", ".js", ".json", ".xml", ".txt", ".pdf", ".zip", ".rar",
   ".jpg", ".jpeg", ".png", ".gif", ".svg", ".ico"]

/-- Table `non_video_keywords` (line 229). -/
def non_video_keywords : List String :=
  ["/wp-content/", "/wp-includes/", "/themes/", "/plugins/", "/assets/",
   "/static/", "/css/", "/js/", "/fonts/", "/images/"]

/-- DoodStream media indicators (line 249). -/
def dood_indicators : List String := [".mp4", ".m3u8", "stream", "video"]

/-- Media extensions accepted on `<source>` tags (line 395). -/
def source_extensions : List String := [".mp4", ".m3u8", ".webm", ".mkv", ".flv"]

/-- Table `exclude_domains` for iframes (line 411). -/
def exclude_domains : List String :=
  ["facebook", "twitter", "instagram", "youtube.com/channel", "google",
   "ads", "advertisement"]

/-- Table `video_indicators` for script matches (line 457). -/
def video_indicators : List String :=
  [".mp4", ".m3u8", ".webm", ".mkv", ".flv", "video", "stream", "cdn",
   "media", "dood", "streamtape", "mixdrop"]

/-- Table `exclude_keywords` for script matches (line 460). -/
def exclude_keywords : List String :=
  ["analytics", "tracking", "advert", "ads", "facebook", "twitter",
   "instagram", "google-analytics", "doubleclick"]

/-- Table of indicators for `data-*` attribute values (line 469). -/
def data_indicators : List String := [".mp4", ".m3u8", ".webm", "video", "stream", "cdn"]

/-- Table `exclude_keywords` for `data-*` attribute values (line 470). -/
def data_excludes : List String := ["analytics", "tracking", "advert", "ads"]

/-! ## The parsed-document model -/

/-- A `<source>` child of a `<video>` tag (attributes read at line 388). -/
structure SourceTag where
  src : Option String
  data_src : Option String
deriving Repr, DecidableEq

/-- A `<video>` tag (attributes read at line 375, children at line 386). -/
structure VideoTag where
  src : Option String
  data_src : Option String
  data_url : Option String
  sources : List SourceTag
deriving Repr, DecidableEq

/-- An `<iframe>` tag (attributes read at lines 323, 353, 401). -/
structure IframeTag where
  src : Option String
  data_src : Option String
  data_url : Option String
  data_frame : Option String
deriving Repr, DecidableEq

/-- A `<script>` tag: `script.string` together with the results of the two
regex scans run over its text.  `candidates` is the ordered list of URL
groups produced by the 16-pattern cascade of lines 426-443 via
`re.findall`; `redirect` is the first match of the
`window.location.(href|replace)` pattern of line 492, whose regex is
anchored on `https?://`. -/
structure ScriptTag where
  text : Option String
  candidates : List String
  redirect : Option String
deriving Repr, DecidableEq

/-- The response to one `client.get`: the HTTP status together with every
view of the body text that `resolve_embed_to_direct` extracts (regex match
results of the provider branches, and the BeautifulSoup queries of the
standard section).  All fields are derived from the same body text by the
external `re`/BeautifulSoup collaborators. -/
structure Response where
  status : Nat
  /-- Match of `var pass_md5 = "..."` (line 243). -/
  dood_pass_md5 : Option String
  /-- Match of `var video_url = "..."` (line 244); not anchored on a scheme. -/
  dood_video_url : Option String
  /-- first match of `["'](https?://[^"']*dood[^"']*\.(?:mp4|m3u8)[^"']*)["']` (line 254). -/
  dood_alt_dood : Option String
  /-- first match of `file[:=]\s*["'](https?://...mp4...)["']` (line 255). -/
  dood_alt_file : Option String
  /-- first match of `sources[:=]\s*[["'](https?://...mp4...)["']` (line 256). -/
  dood_alt_sources : Option String
  /-- Match of the `get_video` pattern (line 276), anchored on `https?://`. -/
  st_get_video : Option String
  /-- Match of the `robotlink` pattern (line 280), anchored on `https?://`. -/
  st_robotlink : Option String
  /-- Match of the `MDCore.wurl` pattern (lines 293, 298), anchored on `https?://`. -/
  md_wurl : Option String
  /-- first match of the mixdrop `sources` pattern (line 299). -/
  md_alt_sources : Option String
  /-- first match of the mixdrop `file` pattern (line 300). -/
  md_alt_file : Option String
  /-- Result of `soup.find('video')` (lines 332, 373). -/
  video : Option VideoTag
  /-- Result of `soup.find_all('iframe')`; `soup.find('iframe')` is its head (lines 321, 351, 399). -/
  iframes : List IframeTag
  /-- Result of `soup.find_all('script')` (lines 419, 488). -/
  scripts : List ScriptTag
  /-- the `(attribute name, value)` pairs of the elements found at line 465;
  a `none` value stands for a non-string (list-valued) attribute, rejected
  by the `isinstance(value, str)` test of line 468. -/
  dataAttrs : List (String × Option String)
  /-- The `href` values of the anchors matched at line 475 (regex `\.m3u8`, case insensitive). -/
  m3u8Hrefs : List String
deriving Repr, DecidableEq

/-- The HTTP GET capability: a fetch either raises or yields a response. -/
def Fetch : Type := String → Except Unit Response

/-- Outcome of one resolver call: the Python outcome (`Except.error` =
uncaught exception, `Except.ok v` = returned `Optional[str]`) and the
ordered list of URLs passed to `client.get` while producing it. -/
abbrev Res : Type := Except Unit (Option String) × List String

/-! ## The provider-specific extraction steps -/

/-- The `for pattern in patterns:` loops of lines 258-265 and 302-309:
return the first match that, after `//`-normalization, starts with
`http`. -/
def scanAlts : List (Option String) → Option String
  | [] => none
  | none :: rest => scanAlts rest
  | some m :: rest =>
    let u := normProtoRel m
    if pyStarts u "http" then some u else scanAlts rest

/-- DoodStream extraction (lines 240-265). -/
def doodExtract (r : Response) : Option String :=
  let first :=
    match r.dood_pass_md5, r.dood_video_url with
    | some _, some vu0 =>
      let vu := normProtoRel vu0
      if pyStarts vu "http" && pyInAny (lowerStr vu) dood_indicators
      then some vu else none
    | _, _ => none
  match first with
  | some v => some v
  | none => scanAlts [r.dood_alt_dood, r.dood_alt_file, r.dood_alt_sources]

/-- Streamtape extraction (lines 273-282): the two matches are returned
as-is; their regexes are anchored on `https?://`. -/
def streamtapeExtract (r : Response) : Option String :=
  match r.st_get_video with
  | some v => some v
  | none => r.st_robotlink

/-- Mixdrop extraction (lines 290-309): the `MDCore.wurl` match is
returned as-is; otherwise the pattern loop (whose first pattern is the
same `MDCore.wurl` regex) is scanned. -/
def mixdropExtract (r : Response) : Option String :=
  match r.md_wurl with
  | some v => some v
  | none => scanAlts [r.md_wurl, r.md_alt_sources, r.md_alt_file]

/-- The `<video src>` check of the Vidstream branch (lines 332-339). -/
def vidstreamVideoSrc (r : Response) : Option String :=
  match r.video with
  | some v =>
    match pyTruthy v.src with
    | some s0 =>
      let s := normProtoRel s0
      if pyStarts s "http" then some s else none
    | none => none
  | none => none

/-- Vidstream/Vidcloud extraction (lines 317-339): first iframe `src`
(recursed into), then the `<video>` tag `src`. -/
def vidstreamExtract (rc : String → Res) (r : Response) : Res :=
  let step2 : Res :=
    (match vidstreamVideoSrc r with
     | some s => Except.ok (some s)
     | none => Except.ok none, [])
  match r.iframes.head? with
  | some i =>
    match pyTruthy i.src with
    | some s0 =>
      let s := normProtoRel s0
      if pyStarts s "http" then
        match rc s with
        | (Except.ok (some v), l) => (Except.ok (some v), l)
        | (Except.ok none, l) => (step2.1, l ++ step2.2)
        | (Except.error e, l) => (Except.error e, l)
      else step2
    | none => step2
  | none => step2

/-- Trembed extraction (lines 347-360): first iframe `src or data-src`,
recursed into. -/
def trembedExtract (rc : String → Res) (r : Response) : Res :=
  match r.iframes.head? with
  | some i =>
    match pyTruthy (pyOr i.src i.data_src) with
    | some s0 =>
      let s := normProtoRel s0
      if pyStarts s "http" then rc s else (Except.ok none, [])
    | none => (Except.ok none, [])
  | none => (Except.ok none, [])

/-- A non-recursive provider branch (`if cond: try: response = await
client.get(...); if response.status_code == 200: <pure extraction>
except: pass`).  A raising fetch is logged and the branch falls through. -/
def providerBranch (cond : Bool) (f : Fetch) (u : String)
    (extract : Response → Option String) : Res :=
  if cond then
    match f u with
    | Except.error _ => (Except.ok none, [u])
    | Except.ok r =>
      if r.status == 200 then
        (match extract r with
         | some v => Except.ok (some v)
         | none => Except.ok none, [u])
      else (Except.ok none, [u])
  else (Except.ok none, [])

/-- A provider branch whose extraction recurses (Vidstream, Trembed).
The surrounding `try/except` also catches anything the extraction would
raise. -/
def providerBranchR (cond : Bool) (f : Fetch) (u : String)
    (extract : Response → Res) : Res :=
  if cond then
    match f u with
    | Except.error _ => (Except.ok none, [u])
    | Except.ok r =>
      if r.status == 200 then
        match extract r with
        | (Except.ok v, l) => (Except.ok v, u :: l)
        | (Except.error _, l) => (Except.ok none, u :: l)
      else (Except.ok none, [u])
  else (Except.ok none, [])

/-! ## The standard (generic) section, priorities 1-6 -/

/-- Priority 1 (lines 373-396): the `<video>` tag `src`/`data-src`/`data-url`
attribute, then its `<source>` children. -/
def sourcesScan (base : String) : List SourceTag → Option String
  | [] => none
  | t :: rest =>
    match pyTruthy (pyOr t.src t.data_src) with
    | some s0 =>
      let s := resolveRel base s0
      if pyStarts s "http" && pyInAny (lowerStr s) source_extensions
      then some s else sourcesScan base rest
    | none => sourcesScan base rest

/-- Priority 1, the whole `<video>` block (lines 374-396). -/
def videoScan (base : String) (v : VideoTag) : Option String :=
  let fromMain :=
    match pyTruthy (pyOr v.src (pyOr v.data_src v.data_url)) with
    | some s0 =>
      let s := resolveRel base s0
      if pyStarts s "http" then some s else none
    | none => none
  match fromMain with
  | some s => some s
  | none => sourcesScan base v.sources

/-- Priority 2 (lines 399-416): recurse into each acceptable iframe target,
first `some` answer wins; logs of failed recursions accumulate. -/
def iframesScan (rc : String → Res) (base : String) : List IframeTag → Res
  | [] => (Except.ok none, [])
  | i :: rest =>
    match pyTruthy (pyOr i.src (pyOr i.data_src (pyOr i.data_url i.data_frame))) with
    | none => iframesScan rc base rest
    | some s0 =>
      let s := resolveRel base s0
      if pyStarts s "http" then
        if pyInAny (lowerStr s) exclude_domains then iframesScan rc base rest
        else
          match rc s with
          | (Except.ok (some v), l) => (Except.ok (some v), l)
          | (Except.ok none, l) =>
            let (res, l2) := iframesScan rc base rest
            (res, l ++ l2)
          | (Except.error e, l) => (Except.error e, l)
      else iframesScan rc base rest

/-- Priority 3 inner loop (lines 445-462): first pattern-cascade candidate
that starts with `http`, contains a video indicator and no excluded
keyword. -/
def candScan : List String → Option String
  | [] => none
  | u :: rest =>
    if pyStarts u "http" && pyInAny (lowerStr u) video_indicators
       && !(pyInAny (lowerStr u) exclude_keywords)
    then some u else candScan rest

/-- Priority 3 (lines 419-462): scan each nonempty script's candidates. -/
def scriptsScan : List ScriptTag → Option String
  | [] => none
  | s :: rest =>
    if (s.text.getD "").data.isEmpty then scriptsScan rest
    else
      match candScan s.candidates with
      | some v => some v
      | none => scriptsScan rest

/-- Priority 4 (lines 465-472): first string-valued `data-*` attribute whose
value starts with `http`, has a media indicator and no excluded keyword. -/
def dataScan : List (String × Option String) → Option String
  | [] => none
  | (nm, val) :: rest =>
    match val with
    | some v =>
      if pyStarts nm "data-" && pyStarts v "http"
         && pyInAny (lowerStr v) data_indicators
         && !(pyInAny (lowerStr v) data_excludes)
      then some v else dataScan rest
    | none => dataScan rest

/-- Priority 5 (lines 475-485): first `.m3u8` anchor href that, after
relative normalization, starts with `http`. -/
def m3u8Scan (base : String) : List String → Option String
  | [] => none
  | h :: rest =>
    if h.data.isEmpty then m3u8Scan base rest
    else
      let s := resolveRel base h
      if pyStarts s "http" then some s else m3u8Scan base rest

/-- Priority 6 (lines 488-498): first `window.location` redirect in a
nonempty script that starts with `http` is recursed into; a failed
recursion falls through to the remaining scripts. -/
def redirectScan (rc : String → Res) : List ScriptTag → Res
  | [] => (Except.ok none, [])
  | s :: rest =>
    if (s.text.getD "").data.isEmpty then redirectScan rc rest
    else
      match s.redirect with
      | some ru =>
        if pyStarts ru "http" then
          match rc ru with
          | (Except.ok (some v), l) => (Except.ok (some v), l)
          | (Except.ok none, l) =>
            let (res, l2) := redirectScan rc rest
            (res, l ++ l2)
          | (Except.error e, l) => (Except.error e, l)
        else redirectScan rc rest
      | none => redirectScan rc rest

/-- The standard resolution section (lines 364-500): an unconditional,
unguarded fetch (its exception escapes to the outer handler), the `!= 200`
early return, then priorities 1-6 in order. -/
def standardStep (f : Fetch) (rc : String → Res) (u : String) : Res :=
  match f u with
  | Except.error e => (Except.error e, [u])
  | Except.ok r =>
    if r.status != 200 then (Except.ok none, [u])
    else
      match (match r.video with
             | some vt => videoScan u vt
             | none => none) with
      | some v => (Except.ok (some v), [u])
      | none =>
        match iframesScan rc u r.iframes with
        | (Except.ok (some v), l) => (Except.ok (some v), u :: l)
        | (Except.error e, l) => (Except.error e, u :: l)
        | (Except.ok none, l) =>
          match scriptsScan r.scripts with
          | some v => (Except.ok (some v), u :: l)
          | none =>
            match dataScan r.dataAttrs with
            | some v => (Except.ok (some v), u :: l)
            | none =>
              match m3u8Scan u r.m3u8Hrefs with
              | some v => (Except.ok (some v), u :: l)
              | none =>
                match redirectScan rc r.scripts with
                | (Except.ok rres, l2) => (Except.ok rres, u :: (l ++ l2))
                | (Except.error e, l2) => (Except.error e, u :: (l ++ l2))

/-! ## The branch cascade -/

/-- Sequence two strategy attempts: `ok (some _)` and `error` stop the
cascade, `ok none` falls through, accumulating fetch logs. -/
def thenTry (a : Res) (b : Unit → Res) : Res :=
  match a with
  | (Except.ok none, l) =>
    let (r, l2) := b ()
    (r, l ++ l2)
  | other => other

/-- Condition `'doodstream.com' in u or 'dood' in u or 'dood.to' in u` (line 237). -/
def doodCond (lu : String) : Bool :=
  pyIn "doodstream.com" lu || pyIn "dood" lu || pyIn "dood.to" lu

/-- Condition `'streamtape.com' in u or 'streamtape.to' in u` (line 270). -/
def streamtapeCond (lu : String) : Bool :=
  pyIn "streamtape.com" lu || pyIn "streamtape.to" lu

/-- Condition `'mixdrop.co' in u or 'mixdrop.to' in u or 'mixdrop' in u` (line 287). -/
def mixdropCond (lu : String) : Bool :=
  pyIn "mixdrop.co" lu || pyIn "mixdrop.to" lu || pyIn "mixdrop" lu

/-- Condition `'vidstream' in u or 'vidcloud' in u` (line 314). -/
def vidstreamCond (lu : String) : Bool :=
  pyIn "vidstream" lu || pyIn "vidcloud" lu

/-- Condition `'trembed' in u or '/embed/' in u` (line 344). -/
def trembedCond (lu : String) : Bool :=
  pyIn "trembed" lu || pyIn "/embed/" lu

/-- The body of the `try:` block (lines 217-500): the early URL filters,
the five provider branches in source order, then the standard section.
`rc` is the recursive call at depth `max_depth - 1`. -/
def resolveTop (f : Fetch) (rc : String → Res) (u : String) : Res :=
  let lu := lowerStr u
  if pyInAny lu non_video_extensions then (Except.ok none, [])
  else if pyInAny lu non_video_keywords then (Except.ok none, [])
  else
    thenTry (providerBranch (doodCond lu) f u doodExtract) (fun _ =>
    thenTry (providerBranch (streamtapeCond lu) f u streamtapeExtract) (fun _ =>
    thenTry (providerBranch (mixdropCond lu) f u mixdropExtract) (fun _ =>
    thenTry (providerBranchR (vidstreamCond lu) f u (vidstreamExtract rc)) (fun _ =>
    thenTry (providerBranchR (trembedCond lu) f u (trembedExtract rc)) (fun _ =>
    standardStep f rc u)))))

/-- The fuel-indexed resolver: fuel `0` is the `max_depth <= 0` guard
(line 213, before the `try:`), and the whole body is wrapped by the
`except Exception: return None` handler of lines 501-503. -/
def resolveN (f : Fetch) : Nat → String → Res
  | 0 => fun _ => (Except.ok none, [])
  | n + 1 => fun u =>
    match resolveTop f (fun v => resolveN f n v) u with
    | (Except.ok v, l) => (Except.ok v, l)
    | (Except.error _, l) => (Except.ok none, l)

/-- The function `resolve_embed_to_direct(client, embed_url, max_depth)`: `max_depth` is
a Python `int`, embedded as `Int`; a non-positive depth gives fuel `0`. -/
def resolve_embed_to_direct (f : Fetch) (u : String) (d : Int) : Res :=
  resolveN f d.toNat u

/-- The value observed by the caller (`Optional[str]`). -/
def resolveVal (f : Fetch) (u : String) (d : Int) : Option String :=
  match (resolve_embed_to_direct f u d).1 with
  | Except.ok v => v
  | Except.error _ => none

/-! ## Concrete fetch oracles used by witnesses and counterexamples -/

/-- A response with status 200 and nothing extractable in the body. -/
def empty200 : Response :=
  { status := 200, dood_pass_md5 := none, dood_video_url := none,
    dood_alt_dood := none, dood_alt_file := none, dood_alt_sources := none,
    st_get_video := none, st_robotlink := none, md_wurl := none,
    md_alt_sources := none, md_alt_file := none,
    video := none, iframes := [], scripts := [], dataAttrs := [],
    m3u8Hrefs := [] }

/-- A page whose only content is one iframe pointing at `s`. -/
def iframePage (s : String) : Response :=
  { empty200 with iframes := [{ src := some s, data_src := none,
                                data_url := none, data_frame := none }] }

/-- A page whose only content is a `<video src="https://v/a.mp4">` tag. -/
def videoPage : Response :=
  { empty200 with video := some { src := some "https://v/a.mp4",
                                  data_src := none, data_url := none,
                                  sources := [] } }

/-- The characters the chain URLs are built from. -/
def chainPre : List Char := ['h', 't', 't', 'p', ':', '/', '/', 'c', '/']

/-- The `i`-th page URL of the nested-iframe chain: `http://c/aa...a`
with `i` copies of `a`. -/
def chainUrl (i : Nat) : String := ⟨chainPre ++ List.replicate i 'a'⟩

/-- Recover `i` from `chainUrl i`. -/
def chainDecode (u : String) : Option Nat :=
  if listPre chainPre u.data && (u.data.drop 9).all (fun c => c == 'a')
  then some (u.data.length - 9) else none

/-- The nested-embed-chain oracle: pages `0 .. N-1` each hold one iframe
pointing at the next page, page `N` holds a direct `<video>` link, and
every other URL fails to fetch. -/
def chainFetch (N : Nat) : Fetch := fun u =>
  match chainDecode u with
  | some i =>
    if i < N then Except.ok (iframePage (chainUrl (i + 1)))
    else if i == N then Except.ok videoPage
    else Except.error ()
  | none => Except.error ()

/-! ## Further concrete oracles -/

/-- Every URL fetches successfully but the page is empty. -/
def constEmptyFetch : Fetch := fun _ => Except.ok empty200

/-- A page whose only content is an iframe with the protocol-relative
target `//i/x`. -/
def relIframePage : Response :=
  { empty200 with iframes := [{ src := some "//i/x", data_src := none,
                                data_url := none, data_frame := none }] }

/-- Serves the protocol-relative-iframe page at `http://a/w`, the video
page at the normalized target `https://i/x`, and fails elsewhere. -/
def relFetch : Fetch := fun u =>
  if u = "http://a/w" then Except.ok relIframePage
  else if u = "https://i/x" then Except.ok videoPage
  else Except.error ()

/-- A page whose only discovery is a `data-*` attribute holding the
protocol-relative URL `//c/v.mp4`. -/
def dataRelPage : Response :=
  { empty200 with dataAttrs := [("data-video", some "//c/v.mp4")] }

/-- Serves `dataRelPage` everywhere. -/
def dataRelFetch : Fetch := fun _ => Except.ok dataRelPage

/-- A page with `<video><source src="https://c/v.mp4"></video>` and one
iframe, for the priority-order scenario. -/
def sourceVideoPage : Response :=
  { empty200 with
      video := some { src := none, data_src := none, data_url := none,
                      sources := [{ src := some "https://c/v.mp4", data_src := none }] },
      iframes := [{ src := some "https://j/e", data_src := none,
                    data_url := none, data_frame := none }] }

/-- Serves `sourceVideoPage` at `http://a/w` only. -/
def sourceVideoFetch : Fetch := fun u =>
  if u = "http://a/w" then Except.ok sourceVideoPage else Except.error ()

/-- The characters the chain URLs are drawn from. -/
def chainChars : List Char := ['h', 't', 'p', ':', '/', 'c', 'a']

/-- The recursive call only returns URLs starting with `http`. -/
def RecHttp (rc : String → Res) : Prop :=
  ∀ s w, (rc s).1 = Except.ok (some w) → pyStarts w "http" = true

/-- The fetch oracle is faithful to the `https?://`-anchored regexes of the
Streamtape and Mixdrop branches: a match of an anchored pattern starts
with `http`.  (Every other returned field is guarded by an explicit
`startswith('http')` check in the code, so no assumption is needed.) -/
def AnchoredFetch (f : Fetch) : Prop :=
  ∀ u r, f u = Except.ok r →
    (∀ w, r.st_get_video = some w → pyStarts w "http" = true) ∧
    (∀ w, r.st_robotlink = some w → pyStarts w "http" = true) ∧
    (∀ w, r.md_wurl = some w → pyStarts w "http" = true)

/-! ## Basic lemmas about the string primitives -/

theorem listPre_chars : ∀ t s, listPre t s = true → ∀ c, c ∈ t → c ∈ s
  | [], _, _, c, hc => absurd hc (List.not_mem_nil c)
  | _ :: _, [], h, _, _ => by simp [listPre] at h
  | a :: as, b :: bs, h, c, hc => by
    simp only [listPre, Bool.and_eq_true, beq_iff_eq] at h
    obtain ⟨h1, h2⟩ := h
    rcases List.mem_cons.mp hc with rfl | hc'
    · exact List.mem_cons.mpr (Or.inl h1)
    · exact List.mem_cons.mpr (Or.inr (listPre_chars as bs h2 c hc'))

theorem listPre_refl : ∀ t : List Char, listPre t t = true
  | [] => rfl
  | _ :: as => by simp [listPre, listPre_refl as]

theorem listPre_sub (t s : List Char) (h : listPre t s = true) :
    listSub t s = true := by
  cases s with
  | nil => exact h
  | cons c rest => simp [listSub, h]

theorem listSub_chars : ∀ t s, listSub t s = true → ∀ c, c ∈ t → c ∈ s
  | t, [], h, c, hc => by
    cases t with
    | nil => exact absurd hc (List.not_mem_nil c)
    | cons a as => simp [listSub, listPre] at h
  | t, b :: bs, h, c, hc => by
    simp only [listSub, Bool.or_eq_true] at h
    rcases h with h | h
    · exact listPre_chars t (b :: bs) h c hc
    · exact List.mem_cons.mpr (Or.inr (listSub_chars t bs h c hc))

theorem listSuf_sub : ∀ t s, listSuf t s = true → listSub t s = true
  | t, [], h => h
  | t, b :: bs, h => by
    simp only [listSuf, Bool.or_eq_true, beq_iff_eq] at h
    rcases h with rfl | h
    · simp [listSub, listPre_refl]
    · simp [listSub, listSuf_sub t bs h]

theorem listPre_append : ∀ (l r : List Char), listPre l (l ++ r) = true
  | [], _ => rfl
  | a :: as, r => by simp [listPre, listPre_append as r]

/-- If some token of `toks` occurs in `s`, the `any` test succeeds. -/
theorem pyInAny_of_mem {s t : String} {toks : List String}
    (hm : t ∈ toks) (h : pyIn t s = true) : pyInAny s toks = true := by
  simp only [pyInAny, List.any_eq_true]
  exact ⟨t, hm, h⟩

/-- A token with a character that `s` lacks does not occur in `s`. -/
theorem pyIn_eq_false_of_missing {t s : String} {c : Char}
    (hct : c ∈ t.data) (hcs : c ∉ s.data) : pyIn t s = false := by
  by_contra h
  exact hcs (listSub_chars t.data s.data (by simpa using h) c hct)

/-! ## Structural lemmas about the branch cascade -/

theorem thenTry_none_nil (b : Unit → Res) :
    thenTry (Except.ok none, []) b = b () := by
  show (match b () with | (r, l2) => (r, ([] : List String) ++ l2)) = b ()
  rcases hb : b () with ⟨r, l2⟩
  simp

theorem thenTry_fst_some {a : Res} {b : Unit → Res} {v : String}
    (h : (thenTry a b).1 = Except.ok (some v)) :
    a.1 = Except.ok (some v) ∨ (b ()).1 = Except.ok (some v) := by
  rcases a with ⟨r, l⟩
  match r with
  | Except.ok none =>
    right
    rcases hb : b () with ⟨r2, l2⟩
    simp only [thenTry, hb] at h
    simpa using h
  | Except.ok (some w) => left; simpa [thenTry] using h
  | Except.error e => simp [thenTry] at h

theorem providerBranch_false {f : Fetch} {u : String}
    {e : Response → Option String} :
    providerBranch false f u e = (Except.ok none, []) := rfl

theorem providerBranchR_false {f : Fetch} {u : String}
    {e : Response → Res} :
    providerBranchR false f u e = (Except.ok none, []) := rfl

theorem providerBranch_fst_some {c : Bool} {f : Fetch} {u v : String}
    {e : Response → Option String}
    (h : (providerBranch c f u e).1 = Except.ok (some v)) :
    ∃ r, f u = Except.ok r ∧ e r = some v := by
  unfold providerBranch at h
  split at h
  · cases hf : f u with
    | error err => simp only [hf] at h; simp at h
    | ok r =>
      simp only [hf] at h
      by_cases hs : r.status == 200
      · simp only [hs, if_true] at h
        cases he : e r with
        | none => simp only [he] at h; simp at h
        | some w => simp only [he] at h; simp at h; exact ⟨r, rfl, by rw [he, h]⟩
      · simp only [if_neg hs] at h; simp at h
  · simp at h

theorem providerBranchR_fst_some {c : Bool} {f : Fetch} {u v : String}
    {e : Response → Res}
    (h : (providerBranchR c f u e).1 = Except.ok (some v)) :
    ∃ r, f u = Except.ok r ∧ (e r).1 = Except.ok (some v) := by
  unfold providerBranchR at h
  split at h
  · cases hf : f u with
    | error err => simp only [hf] at h; simp at h
    | ok r =>
      simp only [hf] at h
      by_cases hs : r.status == 200
      · simp only [hs, if_true] at h
        refine ⟨r, rfl, ?_⟩
        rcases he : e r with ⟨re, le⟩
        simp only [he] at h
        cases re with
        | ok w => simp at h; simp [h]
        | error err => simp at h
      · simp only [if_neg hs] at h; simp at h
  · simp at h

/-! ## Every returned URL starts with "http" (claim C9 support) -/

theorem scanAlts_http : ∀ l v, scanAlts l = some v → pyStarts v "http" = true
  | [], v, h => by simp [scanAlts] at h
  | none :: rest, v, h => scanAlts_http rest v (by simpa [scanAlts] using h)
  | some m :: rest, v, h => by
    by_cases hs : pyStarts (normProtoRel m) "http"
    · simp only [scanAlts, hs, if_true] at h
      cases h
      exact hs
    · simp only [scanAlts, hs, if_false] at h
      exact scanAlts_http rest v h

theorem doodExtract_http {r : Response} {v : String}
    (h : doodExtract r = some v) : pyStarts v "http" = true := by
  unfold doodExtract at h
  cases hm : r.dood_pass_md5 with
  | none =>
    simp only [hm] at h
    exact scanAlts_http _ v h
  | some pm =>
    cases hvu : r.dood_video_url with
    | none =>
      simp only [hm, hvu] at h
      exact scanAlts_http _ v h
    | some vu0 =>
      simp only [hm, hvu] at h
      by_cases hc : pyStarts (normProtoRel vu0) "http"
          && pyInAny (lowerStr (normProtoRel vu0)) dood_indicators
      · simp only [hc, if_true] at h
        cases h
        exact (((Bool.and_eq_true _ _) ▸ hc) : _ ∧ _).1
      · simp only [hc, if_false] at h
        exact scanAlts_http _ v h

theorem streamtapeExtract_http {r : Response} {v : String}
    (h1 : ∀ w, r.st_get_video = some w → pyStarts w "http" = true)
    (h2 : ∀ w, r.st_robotlink = some w → pyStarts w "http" = true)
    (h : streamtapeExtract r = some v) : pyStarts v "http" = true := by
  unfold streamtapeExtract at h
  cases hg : r.st_get_video with
  | some w => simp only [hg] at h; cases h; exact h1 _ hg
  | none => simp only [hg] at h; exact h2 _ h

theorem mixdropExtract_http {r : Response} {v : String}
    (h1 : ∀ w, r.md_wurl = some w → pyStarts w "http" = true)
    (h : mixdropExtract r = some v) : pyStarts v "http" = true := by
  unfold mixdropExtract at h
  cases hw : r.md_wurl with
  | some w => simp only [hw] at h; cases h; exact h1 _ hw
  | none => simp only [hw] at h; exact scanAlts_http _ v h

theorem vidstreamVideoSrc_http {r : Response} {v : String}
    (h : vidstreamVideoSrc r = some v) : pyStarts v "http" = true := by
  unfold vidstreamVideoSrc at h
  cases hv : r.video with
  | none => simp only [hv] at h; simp at h
  | some vt =>
    simp only [hv] at h
    cases ht : pyTruthy vt.src with
    | none => simp only [ht] at h; simp at h
    | some s0 =>
      simp only [ht] at h
      by_cases hs : pyStarts (normProtoRel s0) "http"
      · simp only [hs, if_true] at h; cases h; exact hs
      · simp only [hs, if_false] at h; simp at h

theorem vidstreamExtract_http {rc : String → Res} {r : Response} {v : String}
    (hrc : RecHttp rc) (h : (vidstreamExtract rc r).1 = Except.ok (some v)) :
    pyStarts v "http" = true := by
  unfold vidstreamExtract at h
  cases hh : r.iframes.head? with
  | none =>
    simp only [hh] at h
    cases hv : vidstreamVideoSrc r with
    | some s =>
      simp only [hv] at h; cases h; exact vidstreamVideoSrc_http hv
    | none => simp only [hv] at h; simp at h
  | some i =>
    simp only [hh] at h
    cases ht : pyTruthy i.src with
    | none =>
      simp only [ht] at h
      cases hv : vidstreamVideoSrc r with
      | some s =>
        simp only [hv] at h; cases h; exact vidstreamVideoSrc_http hv
      | none => simp only [hv] at h; simp at h
    | some s0 =>
      simp only [ht] at h
      by_cases hs : pyStarts (normProtoRel s0) "http"
      · simp only [hs, if_true] at h
        rcases hr : rc (normProtoRel s0) with ⟨re, le⟩
        simp only [hr] at h
        match re, h with
        | Except.ok (some w), h =>
          have : w = v := by simpa using h
          exact this ▸ hrc _ w (by rw [hr])
        | Except.ok none, h =>
          cases hv : vidstreamVideoSrc r with
          | some s =>
            simp only [hv] at h
            have : s = v := by simpa using h
            exact this ▸ vidstreamVideoSrc_http hv
          | none => simp only [hv] at h; simp at h
        | Except.error e, h => simp at h
      · simp only [hs, if_false] at h
        cases hv : vidstreamVideoSrc r with
        | some s =>
          simp only [hv] at h; cases h; exact vidstreamVideoSrc_http hv
        | none => simp only [hv] at h; simp at h

theorem trembedExtract_http {rc : String → Res} {r : Response} {v : String}
    (hrc : RecHttp rc) (h : (trembedExtract rc r).1 = Except.ok (some v)) :
    pyStarts v "http" = true := by
  unfold trembedExtract at h
  cases hh : r.iframes.head? with
  | none => simp only [hh] at h; simp at h
  | some i =>
    simp only [hh] at h
    cases ht : pyTruthy (pyOr i.src i.data_src) with
    | none => simp only [ht] at h; simp at h
    | some s0 =>
      simp only [ht] at h
      by_cases hs : pyStarts (normProtoRel s0) "http"
      · simp only [hs, if_true] at h
        exact hrc _ v h
      · simp only [hs, if_false] at h; simp at h

theorem sourcesScan_http {base : String} :
    ∀ l v, sourcesScan base l = some v → pyStarts v "http" = true
  | [], v, h => by simp [sourcesScan] at h
  | t :: rest, v, h => by
    cases ht : pyTruthy (pyOr t.src t.data_src) with
    | none =>
      simp only [sourcesScan, ht] at h
      exact sourcesScan_http rest v h
    | some s0 =>
      simp only [sourcesScan, ht] at h
      by_cases hs : pyStarts (resolveRel base s0) "http"
          && pyInAny (lowerStr (resolveRel base s0)) source_extensions
      · simp only [hs, if_true] at h
        cases h
        exact (((Bool.and_eq_true _ _) ▸ hs) : _ ∧ _).1
      · simp only [hs, if_false] at h
        exact sourcesScan_http rest v h

theorem videoScan_http {base : String} {vt : VideoTag} {v : String}
    (h : videoScan base vt = some v) : pyStarts v "http" = true := by
  unfold videoScan at h
  cases ht : pyTruthy (pyOr vt.src (pyOr vt.data_src vt.data_url)) with
  | none =>
    simp only [ht] at h
    exact sourcesScan_http _ v h
  | some s0 =>
    simp only [ht] at h
    by_cases hs : pyStarts (resolveRel base s0) "http"
    · simp only [hs, if_true] at h; cases h; exact hs
    · simp only [hs, if_false] at h
      exact sourcesScan_http _ v h

theorem iframesScan_http {rc : String → Res} {base : String} (hrc : RecHttp rc) :
    ∀ l v, (iframesScan rc base l).1 = Except.ok (some v) →
      pyStarts v "http" = true
  | [], v, h => by simp [iframesScan] at h
  | i :: rest, v, h => by
    cases ht : pyTruthy (pyOr i.src (pyOr i.data_src (pyOr i.data_url i.data_frame))) with
    | none =>
      simp only [iframesScan, ht] at h
      exact iframesScan_http hrc rest v h
    | some s0 =>
      simp only [iframesScan, ht] at h
      by_cases hs : pyStarts (resolveRel base s0) "http"
      · simp only [hs, if_true] at h
        by_cases hx : pyInAny (lowerStr (resolveRel base s0)) exclude_domains
        · simp only [hx, if_true] at h
          exact iframesScan_http hrc rest v h
        · simp only [hx, if_false] at h
          rcases hr : rc (resolveRel base s0) with ⟨re, le⟩
          simp only [hr] at h
          match re, h with
          | Except.ok (some w), h =>
            have : w = v := by simpa using h
            exact this ▸ hrc _ w (by rw [hr])
          | Except.ok none, h =>
            rcases hrest : iframesScan rc base rest with ⟨r2, l2⟩
            simp only [hrest] at h
            have : r2 = Except.ok (some v) := by simpa using h
            exact iframesScan_http hrc rest v (by rw [hrest, this])
          | Except.error e, h => simp at h
      · simp only [hs, if_false] at h
        exact iframesScan_http hrc rest v h

theorem candScan_http : ∀ l v, candScan l = some v → pyStarts v "http" = true
  | [], v, h => by simp [candScan] at h
  | u :: rest, v, h => by
    by_cases hc : pyStarts u "http" && pyInAny (lowerStr u) video_indicators
        && !(pyInAny (lowerStr u) exclude_keywords)
    · simp only [candScan, hc, if_true] at h
      cases h
      exact ((((Bool.and_eq_true _ _) ▸
        ((((Bool.and_eq_true _ _) ▸ hc) : _ ∧ _).1)) : _ ∧ _)).1
    · simp only [candScan, hc, if_false] at h
      exact candScan_http rest v h

theorem scriptsScan_http : ∀ l v, scriptsScan l = some v → pyStarts v "http" = true
  | [], v, h => by simp [scriptsScan] at h
  | s :: rest, v, h => by
    by_cases he : (s.text.getD "").data.isEmpty
    · simp only [scriptsScan, he, if_true] at h
      exact scriptsScan_http rest v h
    · simp only [scriptsScan, he, if_false] at h
      cases hcs : candScan s.candidates with
      | some w =>
        simp only [hcs] at h; cases h; exact candScan_http _ _ hcs
      | none =>
        simp only [hcs] at h
        exact scriptsScan_http rest v h

theorem dataScan_http : ∀ l v, dataScan l = some v → pyStarts v "http" = true
  | [], v, h => by simp [dataScan] at h
  | (nm, val) :: rest, v, h => by
    cases val with
    | none =>
      simp only [dataScan] at h
      exact dataScan_http rest v h
    | some w =>
      by_cases hc : pyStarts nm "data-" && pyStarts w "http"
          && pyInAny (lowerStr w) data_indicators
          && !(pyInAny (lowerStr w) data_excludes)
      · simp only [dataScan, hc, if_true] at h
        cases h
        exact (((Bool.and_eq_true _ _) ▸
          (((((Bool.and_eq_true _ _) ▸
            (((((Bool.and_eq_true _ _) ▸ hc) : _ ∧ _)).1)) : _ ∧ _)).1)) : _ ∧ _).2
      · simp only [dataScan, hc, if_false] at h
        exact dataScan_http rest v h

theorem m3u8Scan_http {base : String} :
    ∀ l v, m3u8Scan base l = some v → pyStarts v "http" = true
  | [], v, h => by simp [m3u8Scan] at h
  | hd :: rest, v, h => by
    by_cases he : hd.data.isEmpty
    · simp only [m3u8Scan, he, if_true] at h
      exact m3u8Scan_http rest v h
    · simp only [m3u8Scan, he, if_false] at h
      by_cases hs : pyStarts (resolveRel base hd) "http"
      · simp only [hs, if_true] at h; cases h; exact hs
      · simp only [hs, if_false] at h
        exact m3u8Scan_http rest v h

theorem redirectScan_http {rc : String → Res} (hrc : RecHttp rc) :
    ∀ l v, (redirectScan rc l).1 = Except.ok (some v) → pyStarts v "http" = true
  | [], v, h => by simp [redirectScan] at h
  | s :: rest, v, h => by
    by_cases he : (s.text.getD "").data.isEmpty
    · simp only [redirectScan, he, if_true] at h
      exact redirectScan_http hrc rest v h
    · simp only [redirectScan, he, if_false] at h
      cases hrd : s.redirect with
      | none =>
        simp only [hrd] at h
        exact redirectScan_http hrc rest v h
      | some ru =>
        simp only [hrd] at h
        by_cases hs : pyStarts ru "http"
        · simp only [hs, if_true] at h
          rcases hr : rc ru with ⟨re, le⟩
          simp only [hr] at h
          match re, h with
          | Except.ok (some w), h =>
            have : w = v := by simpa using h
            exact this ▸ hrc _ w (by rw [hr])
          | Except.ok none, h =>
            rcases hrest : redirectScan rc rest with ⟨r2, l2⟩
            simp only [hrest] at h
            have : r2 = Except.ok (some v) := by simpa using h
            exact redirectScan_http hrc rest v (by rw [hrest, this])
          | Except.error e, h => simp at h
        · simp only [hs, if_false] at h
          exact redirectScan_http hrc rest v h

theorem standardStep_http {f : Fetch} {rc : String → Res} {u v : String}
    (hrc : RecHttp rc) (h : (standardStep f rc u).1 = Except.ok (some v)) :
    pyStarts v "http" = true := by
  unfold standardStep at h
  cases hf : f u with
  | error e => simp only [hf] at h; simp at h
  | ok r =>
    simp only [hf] at h
    cases hs : r.status != 200 with
    | true => simp only [hs, if_true] at h; simp at h
    | false =>
      simp only [hs, if_false] at h
      cases hp1 : (match r.video with
                   | some vt => videoScan u vt
                   | none => none) with
      | some w =>
        simp only [hp1] at h
        cases h
        cases hv : r.video with
        | none => rw [hv] at hp1; simp at hp1
        | some vt => rw [hv] at hp1; exact videoScan_http hp1
      | none =>
        simp only [hp1] at h
        rcases h2 : iframesScan rc u r.iframes with ⟨re, le⟩
        simp only [h2] at h
        match re, h with
        | Except.ok (some w), h =>
          have : w = v := by simpa using h
          exact this ▸ iframesScan_http hrc r.iframes w (by rw [h2])
        | Except.error e, h => simp at h
        | Except.ok none, h =>
          cases h3 : scriptsScan r.scripts with
          | some w =>
            simp only [h3] at h
            have : w = v := by simpa using h
            exact this ▸ scriptsScan_http _ w h3
          | none =>
            simp only [h3] at h
            cases h4 : dataScan r.dataAttrs with
            | some w =>
              simp only [h4] at h
              have : w = v := by simpa using h
              exact this ▸ dataScan_http _ w h4
            | none =>
              simp only [h4] at h
              cases h5 : m3u8Scan u r.m3u8Hrefs with
              | some w =>
                simp only [h5] at h
                have : w = v := by simpa using h
                exact this ▸ m3u8Scan_http _ w h5
              | none =>
                simp only [h5] at h
                rcases h6 : redirectScan rc r.scripts with ⟨r6, l6⟩
                simp only [h6] at h
                match r6, h with
                | Except.ok w6, h =>
                  have : w6 = some v := by simpa using h
                  exact redirectScan_http hrc r.scripts v (by rw [h6, this])
                | Except.error e, h => simp at h

theorem resolveTop_http {f : Fetch} {rc : String → Res} {u v : String}
    (hf : AnchoredFetch f) (hrc : RecHttp rc)
    (h : (resolveTop f rc u).1 = Except.ok (some v)) :
    pyStarts v "http" = true := by
  unfold resolveTop at h
  by_cases h1 : pyInAny (lowerStr u) non_video_extensions
  · rw [if_pos h1] at h; simp at h
  · rw [if_neg h1] at h
    by_cases h2 : pyInAny (lowerStr u) non_video_keywords
    · rw [if_pos h2] at h; simp at h
    · rw [if_neg h2] at h
      rcases thenTry_fst_some h with hb | h
      · obtain ⟨r, hfu, he⟩ := providerBranch_fst_some hb
        exact doodExtract_http he
      rcases thenTry_fst_some h with hb | h
      · obtain ⟨r, hfu, he⟩ := providerBranch_fst_some hb
        obtain ⟨hg, hr, _⟩ := hf _ _ hfu
        exact streamtapeExtract_http hg hr he
      rcases thenTry_fst_some h with hb | h
      · obtain ⟨r, hfu, he⟩ := providerBranch_fst_some hb
        obtain ⟨_, _, hw⟩ := hf _ _ hfu
        exact mixdropExtract_http hw he
      rcases thenTry_fst_some h with hb | h
      · obtain ⟨r, hfu, he⟩ := providerBranchR_fst_some hb
        exact vidstreamExtract_http hrc he
      rcases thenTry_fst_some h with hb | h
      · obtain ⟨r, hfu, he⟩ := providerBranchR_fst_some hb
        exact trembedExtract_http hrc he
      exact standardStep_http hrc h

theorem resolveN_http {f : Fetch} (hf : AnchoredFetch f) :
    ∀ n u v, (resolveN f n u).1 = Except.ok (some v) → pyStarts v "http" = true
  | 0, u, v, h => by simp [resolveN] at h
  | n + 1, u, v, h => by
    have hrc : RecHttp (fun s => resolveN f n s) :=
      fun s w hw => resolveN_http hf n s w hw
    rcases ht : resolveTop f (fun s => resolveN f n s) u with ⟨re, le⟩
    simp only [resolveN, ht] at h
    match re, h with
    | Except.ok w, h =>
      have hw : w = some v := by simpa using h
      exact resolveTop_http hf hrc (by rw [ht, hw])
    | Except.error e, h => simp at h

/-! ## Computation helpers for scenario proofs -/

theorem resolveTop_no_provider {f : Fetch} {rc : String → Res} {u : String}
    (h1 : pyInAny (lowerStr u) non_video_extensions = false)
    (h2 : pyInAny (lowerStr u) non_video_keywords = false)
    (hd : doodCond (lowerStr u) = false)
    (hst : streamtapeCond (lowerStr u) = false)
    (hmx : mixdropCond (lowerStr u) = false)
    (hvs : vidstreamCond (lowerStr u) = false)
    (htr : trembedCond (lowerStr u) = false) :
    resolveTop f rc u = standardStep f rc u := by
  unfold resolveTop
  rw [if_neg (by simp [h1]), if_neg (by simp [h2]),
      hd, hst, hmx, hvs, htr,
      providerBranch_false, providerBranch_false, providerBranch_false,
      providerBranchR_false, providerBranchR_false,
      thenTry_none_nil, thenTry_none_nil, thenTry_none_nil,
      thenTry_none_nil, thenTry_none_nil]

theorem standardStep_none {f : Fetch} {rc : String → Res} {u : String}
    {r : Response} {l : List String}
    (hfu : f u = Except.ok r) (hst : r.status = 200)
    (hv : r.video = none)
    (hif : iframesScan rc u r.iframes = (Except.ok none, l))
    (hsc : r.scripts = []) (hda : r.dataAttrs = []) (hm3 : r.m3u8Hrefs = []) :
    standardStep f rc u = (Except.ok none, u :: l) := by
  unfold standardStep
  rw [hfu]
  simp only [hst, hv, hif, hsc, hda, hm3]
  norm_num [scriptsScan, dataScan, m3u8Scan, redirectScan]

theorem standardStep_video {f : Fetch} {rc : String → Res} {u v : String}
    {r : Response}
    (hfu : f u = Except.ok r) (hst : r.status = 200)
    (hv : (match r.video with
           | some vt => videoScan u vt
           | none => none) = some v) :
    standardStep f rc u = (Except.ok (some v), [u]) := by
  unfold standardStep
  rw [hfu]
  simp only [hst, hv]
  norm_num

/-! ## Facts about the chain oracle -/

theorem chainUrl_chars (i : Nat) : ∀ c ∈ (chainUrl i).data, c ∈ chainChars := by
  intro c hc
  have : c ∈ chainPre ++ List.replicate i 'a' := hc
  rcases List.mem_append.mp this with h | h
  · have hsub : ∀ x ∈ chainPre, x ∈ chainChars := by decide
    exact hsub c h
  · rw [List.eq_of_mem_replicate h]
    decide

theorem chain_pyIn_false (i : Nat) (t : String)
    (hb : ∃ c ∈ t.data, c ∉ chainChars) : pyIn t (chainUrl i) = false := by
  obtain ⟨c, hct, hcc⟩ := hb
  exact pyIn_eq_false_of_missing hct (fun hmem => hcc (chainUrl_chars i c hmem))

theorem chain_inAny_false (i : Nat) (toks : List String)
    (hb : ∀ t ∈ toks, ∃ c ∈ t.data, c ∉ chainChars) :
    pyInAny (chainUrl i) toks = false := by
  rw [pyInAny, List.any_eq_false]
  intro t ht
  simp [chain_pyIn_false i t (hb t ht)]

theorem chain_lower (i : Nat) : lowerStr (chainUrl i) = chainUrl i := by
  show (⟨((chainPre ++ List.replicate i 'a').map Char.toLower)⟩ : String) = _
  have : (chainPre ++ List.replicate i 'a').map Char.toLower
      = chainPre ++ List.replicate i 'a' := by
    rw [List.map_append, List.map_replicate]
    have h1 : chainPre.map Char.toLower = chainPre := by decide
    have h2 : Char.toLower 'a' = 'a' := by decide
    rw [h1, h2]
  rw [this]
  rfl

theorem chain_starts_http (j : Nat) : pyStarts (chainUrl j) "http" = true := rfl

theorem chain_not_dslash (j : Nat) : pyStarts (chainUrl j) "//" = false := rfl

theorem chain_not_slash (j : Nat) : pyStarts (chainUrl j) "/" = false := rfl

theorem chain_nonempty (j : Nat) : (chainUrl j).data.isEmpty = false := rfl

theorem chainDecode_chainUrl (i : Nat) : chainDecode (chainUrl i) = some i := by
  have hdata : (chainUrl i).data = chainPre ++ List.replicate i 'a' := rfl
  unfold chainDecode
  rw [hdata]
  have h1 : listPre chainPre (chainPre ++ List.replicate i 'a') = true :=
    listPre_append _ _
  have hdrop : (chainPre ++ List.replicate i 'a').drop 9 = List.replicate i 'a' := by
    have h9 : chainPre.length = 9 := rfl
    rw [← h9, List.drop_left]
  have h2 : ((chainPre ++ List.replicate i 'a').drop 9).all (fun c => c == 'a') = true := by
    rw [hdrop, List.all_eq_true]
    intro c hc
    rw [List.eq_of_mem_replicate hc]
    decide
  rw [h1, h2]
  have hlen : (chainPre ++ List.replicate i 'a').length = 9 + i := by
    have h9 : chainPre.length = 9 := rfl
    rw [List.length_append, List.length_replicate, h9]
  simp [hlen]

theorem chainFetch_at (N i : Nat) (h : i < N) :
    chainFetch N (chainUrl i) = Except.ok (iframePage (chainUrl (i + 1))) := by
  unfold chainFetch
  rw [chainDecode_chainUrl]
  simp [h]

/-- Exhausting the budget inside the chain: with `N > i + n` the resolver
starting at page `i` with fuel `n` never reaches the final video page. -/
theorem chain_resolveN_none (N : Nat) :
    ∀ n i, N > i + n → (resolveN (chainFetch N) n (chainUrl i)).1 = Except.ok none
  | 0, i, _ => by simp [resolveN]
  | n + 1, i, hN => by
    have hiN : i < N := by omega
    have hIH : (resolveN (chainFetch N) n (chainUrl (i + 1))).1 = Except.ok none :=
      chain_resolveN_none N n (i + 1) (by omega)
    have hext : pyInAny (lowerStr (chainUrl i)) non_video_extensions = false := by
      rw [chain_lower]
      exact chain_inAny_false i _ (by decide)
    have hkw : pyInAny (lowerStr (chainUrl i)) non_video_keywords = false := by
      rw [chain_lower]
      exact chain_inAny_false i _ (by decide)
    have hd : doodCond (lowerStr (chainUrl i)) = false := by
      rw [chain_lower]
      simp [doodCond, chain_pyIn_false i _ (by decide : ∃ c ∈ ("doodstream.com" : String).data, c ∉ chainChars),
            chain_pyIn_false i _ (by decide : ∃ c ∈ ("dood" : String).data, c ∉ chainChars),
            chain_pyIn_false i _ (by decide : ∃ c ∈ ("dood.to" : String).data, c ∉ chainChars)]
    have hst : streamtapeCond (lowerStr (chainUrl i)) = false := by
      rw [chain_lower]
      simp [streamtapeCond,
            chain_pyIn_false i _ (by decide : ∃ c ∈ ("streamtape.com" : String).data, c ∉ chainChars),
            chain_pyIn_false i _ (by decide : ∃ c ∈ ("streamtape.to" : String).data, c ∉ chainChars)]
    have hmx : mixdropCond (lowerStr (chainUrl i)) = false := by
      rw [chain_lower]
      simp [mixdropCond,
            chain_pyIn_false i _ (by decide : ∃ c ∈ ("mixdrop.co" : String).data, c ∉ chainChars),
            chain_pyIn_false i _ (by decide : ∃ c ∈ ("mixdrop.to" : String).data, c ∉ chainChars),
            chain_pyIn_false i _ (by decide : ∃ c ∈ ("mixdrop" : String).data, c ∉ chainChars)]
    have hvs : vidstreamCond (lowerStr (chainUrl i)) = false := by
      rw [chain_lower]
      simp [vidstreamCond,
            chain_pyIn_false i _ (by decide : ∃ c ∈ ("vidstream" : String).data, c ∉ chainChars),
            chain_pyIn_false i _ (by decide : ∃ c ∈ ("vidcloud" : String).data, c ∉ chainChars)]
    have htr : trembedCond (lowerStr (chainUrl i)) = false := by
      rw [chain_lower]
      simp [trembedCond,
            chain_pyIn_false i _ (by decide : ∃ c ∈ ("trembed" : String).data, c ∉ chainChars),
            chain_pyIn_false i _ (by decide : ∃ c ∈ ("/embed/" : String).data, c ∉ chainChars)]
    have htop : resolveTop (chainFetch N) (fun s => resolveN (chainFetch N) n s) (chainUrl i)
        = standardStep (chainFetch N) (fun s => resolveN (chainFetch N) n s) (chainUrl i) :=
      resolveTop_no_provider hext hkw hd hst hmx hvs htr
    -- the single iframe recurses and fails by the induction hypothesis
    rcases hrec : resolveN (chainFetch N) n (chainUrl (i + 1)) with ⟨rr, lr⟩
    have hrr : rr = Except.ok none := by rw [hrec] at hIH; exact hIH
    subst hrr
    have hscan : iframesScan (fun s => resolveN (chainFetch N) n s) (chainUrl i)
        (iframePage (chainUrl (i + 1))).iframes = (Except.ok none, lr) := by
      show iframesScan _ _ [{ src := some (chainUrl (i + 1)), data_src := none,
                              data_url := none, data_frame := none }] = _
      unfold iframesScan
      have htruthy : pyTruthy (pyOr (some (chainUrl (i + 1)))
          (pyOr none (pyOr none none))) = some (chainUrl (i + 1)) := by
        simp [pyOr, pyTruthy, chain_nonempty]
      rw [htruthy]
      have hrel : resolveRel (chainUrl i) (chainUrl (i + 1)) = chainUrl (i + 1) := by
        unfold resolveRel
        rw [chain_not_dslash, chain_not_slash]
        simp
      have hexc : pyInAny (lowerStr (chainUrl (i + 1))) exclude_domains = false := by
        rw [chain_lower]
        exact chain_inAny_false (i + 1) _ (by decide)
      simp only [hrel, chain_starts_http, if_true, hexc, Bool.false_eq_true, if_false]
      rw [hrec]
      simp [iframesScan]
    have hstd : standardStep (chainFetch N) (fun s => resolveN (chainFetch N) n s) (chainUrl i)
        = (Except.ok none, chainUrl i :: lr) :=
      standardStep_none (chainFetch_at N i hiN) rfl rfl hscan rfl rfl rfl
    show (match resolveTop (chainFetch N) (fun s => resolveN (chainFetch N) n s) (chainUrl i) with
          | (Except.ok v, l) => ((Except.ok v : Except Unit (Option String)), l)
          | (Except.error _, l) => (Except.ok none, l)).1 = Except.ok none
    rw [htop, hstd]

/-! ## Small unfolding lemmas for the resolver -/

theorem resolveN_zero (f : Fetch) (u : String) :
    resolveN f 0 u = (Except.ok none, []) := rfl

theorem resolveN_succ (f : Fetch) (n : Nat) (u : String) :
    resolveN f (n + 1) u
      = match resolveTop f (fun v => resolveN f n v) u with
        | (Except.ok v, l) => (Except.ok v, l)
        | (Except.error _, l) => (Except.ok none, l) := rfl

theorem thenTry_none (l : List String) (b : Unit → Res) :
    thenTry (Except.ok none, l) b = ((b ()).1, l ++ (b ()).2) := by
  show (match b () with | (r, l2) => (r, l ++ l2)) = _
  rcases hb : b () with ⟨r, l2⟩
  simp

theorem pyStarts_http_facts {s : String} (h : pyStarts s "http" = true) :
    s.data.isEmpty = false ∧ pyStarts s "/" = false ∧ pyStarts s "//" = false := by
  have h' : listPre ['h', 't', 't', 'p'] s.data = true := h
  cases hs : s.data with
  | nil => rw [hs] at h'; simp [listPre] at h'
  | cons c cs =>
    rw [hs] at h'
    simp only [listPre, Bool.and_eq_true, beq_iff_eq] at h'
    obtain ⟨hc, -⟩ := h'
    subst hc
    refine ⟨by rfl, ?_, ?_⟩
    · unfold pyStarts; rw [hs]; rfl
    · unfold pyStarts; rw [hs]; rfl

/-- The anchored-regex assumption holds for the chain oracle (whose pages
carry no provider fields at all). -/
theorem chainFetch_anchored (N : Nat) : AnchoredFetch (chainFetch N) := by
  intro u r h
  unfold chainFetch at h
  cases hd : chainDecode u with
  | none => simp only [hd] at h; simp at h
  | some i =>
    simp only [hd] at h
    by_cases h1 : i < N
    · simp only [h1, if_true] at h
      cases h
      refine ⟨?_, ?_, ?_⟩ <;> intro w hw <;> simp [iframePage, empty200] at hw
    · simp only [h1, if_false] at h
      by_cases h2 : i == N
      · simp only [h2, if_true] at h
        cases h
        refine ⟨?_, ?_, ?_⟩ <;> intro w hw <;> simp [videoPage, empty200] at hw
      · simp only [h2, if_false] at h; simp at h

/-! ## The claims -/

/-- Claim C1: every recursive call (iframe targets, provider iframes,
`window.location` redirects) is made with depth `max_depth - 1`, so on a
chain of `N` nested embed pages each holding only an iframe to the next
(with the direct link only on page `N`), any depth budget `d < N` is
exhausted and resolution terminates with nothing instead of recursing
indefinitely. -/
theorem c1_chain_exhausts_depth (N : Nat) (d : Int) (h : d < (N : Int)) :
    (resolve_embed_to_direct (chainFetch N) (chainUrl 0) d).1 = Except.ok none := by
  unfold resolve_embed_to_direct
  rcases hn : d.toNat with _ | n
  · rw [resolveN_zero]
  · exact chain_resolveN_none N (n + 1) 0 (by omega)

/-- Witness for C1: a 3-page chain with depth budget 2 returns nothing. -/
theorem c1_witness :
    (2 : Int) < ((3 : Nat) : Int) ∧
    (resolve_embed_to_direct (chainFetch 3) (chainUrl 0) 2).1 = Except.ok none :=
  ⟨by decide, c1_chain_exhausts_depth 3 2 (by decide)⟩

/-- Claim C2: for every URL and every `max_depth ≤ 0`,
`resolve_embed_to_direct` returns nothing immediately, with an empty fetch
log: the depth guard precedes all other processing. -/
theorem c2_depth_guard (f : Fetch) (u : String) (d : Int) (h : d ≤ 0) :
    resolve_embed_to_direct f u d = (Except.ok none, []) := by
  unfold resolve_embed_to_direct
  have h0 : d.toNat = 0 := by omega
  rw [h0, resolveN_zero]

/-- Witness for C2: depth `0` on a live oracle — no fetch, no result. -/
theorem c2_witness :
    (0 : Int) ≤ 0 ∧
    resolve_embed_to_direct constEmptyFetch "http://a/w" 0 = (Except.ok none, []) :=
  ⟨by decide, c2_depth_guard constEmptyFetch "http://a/w" 0 (by decide)⟩

/-- Claim C3: no exception ever propagates to the caller: for every fetch
oracle (including one that raises on every call), every URL and every
depth, the outcome is `Except.ok` of an optional URL. -/
theorem c3_no_exception_escapes (f : Fetch) (u : String) (d : Int) :
    ∃ v : Option String, (resolve_embed_to_direct f u d).1 = Except.ok v := by
  unfold resolve_embed_to_direct
  rcases hn : d.toNat with _ | n
  · exact ⟨none, by rw [resolveN_zero]⟩
  · rw [resolveN_succ]
    rcases ht : resolveTop f (fun v => resolveN f n v) u with ⟨re, le⟩
    cases re with
    | ok v => exact ⟨v, rfl⟩
    | error e => exact ⟨none, rfl⟩

/-- Claim C4: a URL whose lowercase form ends in `.css` or `.png` is rejected
with nothing and no fetch, for every `max_depth > 0`. -/
theorem c4_nonvideo_extension_rejected (f : Fetch) (u : String) (d : Int)
    (hd : 0 < d)
    (h : pyEnds (lowerStr u) ".css" = true ∨ pyEnds (lowerStr u) ".png" = true) :
    resolve_embed_to_direct f u d = (Except.ok none, []) := by
  have hx : pyInAny (lowerStr u) non_video_extensions = true := by
    rcases h with h | h
    · exact pyInAny_of_mem (by decide) (listSuf_sub _ _ h)
    · exact pyInAny_of_mem (by decide) (listSuf_sub _ _ h)
  unfold resolve_embed_to_direct
  obtain ⟨n, hn⟩ : ∃ n, d.toNat = n + 1 := ⟨d.toNat - 1, by omega⟩
  rw [hn, resolveN_succ]
  have htop : resolveTop f (fun v => resolveN f n v) u = (Except.ok none, []) := by
    unfold resolveTop
    rw [if_pos hx]
  rw [htop]

/-- Witness for C4: `https://x/s.png` at depth 1. -/
theorem c4_witness :
    (0 : Int) < 1 ∧ pyEnds (lowerStr "https://x/s.png") ".png" = true ∧
    resolve_embed_to_direct constEmptyFetch "https://x/s.png" 1 = (Except.ok none, []) :=
  ⟨by decide, by decide,
   c4_nonvideo_extension_rejected constEmptyFetch "https://x/s.png" 1 (by decide)
     (Or.inr (by decide))⟩

/-- Claim C5: strategies apply in strict priority order: on a page matching
no provider pattern whose `<video>` holds a `<source>` child with an
absolute `http` URL bearing a recognized media extension,
`resolve(page_url, 2)` returns that source URL after a single fetch —
no iframe on the page is recursed into (the fetch log is `[u]` even though
the page may contain iframes). -/
theorem c5_video_source_priority (f : Fetch) (u s : String) (r : Response)
    (h1 : pyInAny (lowerStr u) non_video_extensions = false)
    (h2 : pyInAny (lowerStr u) non_video_keywords = false)
    (hdo : doodCond (lowerStr u) = false)
    (hst : streamtapeCond (lowerStr u) = false)
    (hmx : mixdropCond (lowerStr u) = false)
    (hvs : vidstreamCond (lowerStr u) = false)
    (htr : trembedCond (lowerStr u) = false)
    (hfu : f u = Except.ok r) (hs200 : r.status = 200)
    (hvid : r.video = some { src := none, data_src := none, data_url := none,
                             sources := [{ src := some s, data_src := none }] })
    (hhttp : pyStarts s "http" = true)
    (hmedia : pyInAny (lowerStr s) source_extensions = true) :
    resolve_embed_to_direct f u 2 = (Except.ok (some s), [u]) := by
  obtain ⟨hne, hsl, hdsl⟩ := pyStarts_http_facts hhttp
  have hrel : resolveRel u s = s := by simp [resolveRel, hdsl, hsl]
  have hscan : videoScan u (VideoTag.mk none none none
      [SourceTag.mk (some s) none]) = some s := by
    simp [videoScan, sourcesScan, pyOr, pyTruthy, hne, hrel, hhttp, hmedia]
  have htop : resolveTop f (fun v => resolveN f 1 v) u
      = standardStep f (fun v => resolveN f 1 v) u :=
    resolveTop_no_provider h1 h2 hdo hst hmx hvs htr
  have hstd : standardStep f (fun v => resolveN f 1 v) u
      = (Except.ok (some s), [u]) := by
    refine standardStep_video hfu hs200 ?_
    rw [hvid]
    exact hscan
  show resolveN f (2 : Int).toNat u = _
  have h2n : (2 : Int).toNat = 1 + 1 := rfl
  rw [h2n, resolveN_succ, htop, hstd]

/-- Witness for C5: the concrete page `sourceVideoPage` (which also
carries an iframe) resolves to the `<source>` URL with one fetch. -/
theorem c5_witness :
    sourceVideoFetch "http://a/w" = Except.ok sourceVideoPage ∧
    pyStarts "https://c/v.mp4" "http" = true ∧
    resolve_embed_to_direct sourceVideoFetch "http://a/w" 2
      = (Except.ok (some "https://c/v.mp4"), ["http://a/w"]) :=
  ⟨rfl, by decide,
   c5_video_source_priority sourceVideoFetch "http://a/w" "https://c/v.mp4"
     sourceVideoPage (by decide) (by decide) (by decide) (by decide) (by decide)
     (by decide) (by decide) rfl rfl rfl (by decide) (by decide)⟩

/-- Claim C6, counterexample: a page whose only discovery is the `data-*`
attribute value `//c/v.mp4` (protocol-relative, with a media indicator and
no excluded keyword).  Under the claim the value would be normalized to
`https://c/v.mp4` and returned; the code never normalizes `data-*`
values — the `startswith('http')` test at line 468 fails and the value is
skipped, so resolution returns nothing. -/
theorem c6_counterexample :
    resolveVal dataRelFetch "http://a/w" 2 = none ∧
    resolveVal dataRelFetch "http://a/w" 2 ≠ some "https://c/v.mp4" := by
  refine ⟨by decide, by decide⟩

/-- Claim C6 as amended: protocol-relative URLs discovered in iframe `src`
attributes are normalized to `https://host/path` before being recursed
into (concretely: the iframe target `//i/x` is fetched as `https://i/x`
and resolved); protocol-relative values found by the script-pattern scan
or in `data-*` attributes are never normalized — they are skipped, and
those two scans only ever return URLs already starting with `http`. -/
theorem c6_amended :
    (resolve_embed_to_direct relFetch "http://a/w" 2
      = (Except.ok (some "https://v/a.mp4"), ["http://a/w", "https://i/x"])) ∧
    (∀ l v, dataScan l = some v → pyStarts v "http" = true) ∧
    (∀ l v, candScan l = some v → pyStarts v "http" = true) :=
  ⟨by rfl, fun l v h => dataScan_http l v h, fun l v h => candScan_http l v h⟩

/-- Witness for the amended C6: the `data-*` scan does return plain
`http`-scheme values. -/
theorem c6_amended_witness : pyStarts "http://c/v.mp4" "http" = true :=
  c6_amended.2.1 [("data-x", some "http://c/v.mp4")] "http://c/v.mp4" (by decide)

/-- Claim C7, counterexample: `http://a/embed/x` matches the trembed provider
pattern; the branch fetches it and finds nothing, and the generic step
then fetches the very same URL again — the fetch log of a single
resolution at one level holds the URL twice, refuting "the generic step
does not fetch it again". -/
theorem c7_counterexample :
    (resolve_embed_to_direct constEmptyFetch "http://a/embed/x" 2).2
      = ["http://a/embed/x", "http://a/embed/x"] := by decide

/-- Claim C7 as amended: the fetch is not shared: when a provider-specific
branch (here trembed) fetches the URL and its extraction finds nothing,
the generic step fetches the same URL a second time — at a single
recursion level the URL is fetched exactly twice. -/
theorem c7_amended (f : Fetch) (u : String) (r : Response)
    (h1 : pyInAny (lowerStr u) non_video_extensions = false)
    (h2 : pyInAny (lowerStr u) non_video_keywords = false)
    (hdo : doodCond (lowerStr u) = false)
    (hst : streamtapeCond (lowerStr u) = false)
    (hmx : mixdropCond (lowerStr u) = false)
    (hvs : vidstreamCond (lowerStr u) = false)
    (htr : trembedCond (lowerStr u) = true)
    (hfu : f u = Except.ok r) (hs200 : r.status = 200)
    (hif : r.iframes = []) (hv : r.video = none) (hsc : r.scripts = [])
    (hda : r.dataAttrs = []) (hm3 : r.m3u8Hrefs = []) :
    resolve_embed_to_direct f u 1 = (Except.ok none, [u, u]) := by
  have hext : trembedExtract (fun v => resolveN f 0 v) r = (Except.ok none, []) := by
    unfold trembedExtract
    rw [hif]
    rfl
  have hbr : providerBranchR true f u (trembedExtract (fun v => resolveN f 0 v))
      = (Except.ok none, [u]) := by
    unfold providerBranchR
    simp [hfu, hs200, hext]
  have hiscan : iframesScan (fun v => resolveN f 0 v) u r.iframes
      = (Except.ok none, []) := by
    rw [hif]
    rfl
  have hstd : standardStep f (fun v => resolveN f 0 v) u = (Except.ok none, [u]) :=
    standardStep_none hfu hs200 hv hiscan hsc hda hm3
  have htop : resolveTop f (fun v => resolveN f 0 v) u = (Except.ok none, [u, u]) := by
    unfold resolveTop
    rw [if_neg (by simp [h1]), if_neg (by simp [h2]),
        hdo, hst, hmx, hvs, htr,
        providerBranch_false, providerBranch_false, providerBranch_false,
        providerBranchR_false,
        thenTry_none_nil, thenTry_none_nil, thenTry_none_nil, thenTry_none_nil,
        hbr, thenTry_none]
    rw [hstd]
    rfl
  show resolveN f (1 : Int).toNat u = _
  have h1n : (1 : Int).toNat = 0 + 1 := rfl
  rw [h1n, resolveN_succ, htop]

/-- Witness for the amended C7: the concrete empty trembed page is fetched
twice at one level. -/
theorem c7_amended_witness :
    trembedCond (lowerStr "http://a/embed/x") = true ∧
    resolve_embed_to_direct constEmptyFetch "http://a/embed/x" 1
      = (Except.ok none, ["http://a/embed/x", "http://a/embed/x"]) :=
  ⟨by decide,
   c7_amended constEmptyFetch "http://a/embed/x" empty200 (by decide) (by decide)
     (by decide) (by decide) (by decide) (by decide) (by decide)
     rfl rfl rfl rfl rfl rfl rfl⟩

/-- Claim C8: determinism: two runs at the same URL and depth against fetch
oracles that answer identically (static content) produce identical
results — same outcome and same fetch log. -/
theorem c8_deterministic (f g : Fetch) (u : String) (d : Int)
    (h : ∀ x, f x = g x) :
    resolve_embed_to_direct f u d = resolve_embed_to_direct g u d := by
  have hfg : f = g := funext h
  rw [hfg]

/-- Witness for C8. -/
theorem c8_witness :
    resolve_embed_to_direct constEmptyFetch "http://a/w" 2
      = resolve_embed_to_direct constEmptyFetch "http://a/w" 2 :=
  c8_deterministic constEmptyFetch constEmptyFetch "http://a/w" 2 (fun _ => rfl)

/-- Claim C9: whenever the resolver returns a URL, that URL starts with
`http` — for every fetch oracle faithful to the `https?://`-anchored
regexes of the streamtape/mixdrop branches (every other return path checks
`startswith('http')` explicitly), every URL, fetched content and depth. -/
theorem c9_returned_url_starts_with_http (f : Fetch) (hf : AnchoredFetch f)
    (d : Int) (u v : String)
    (h : (resolve_embed_to_direct f u d).1 = Except.ok (some v)) :
    pyStarts v "http" = true :=
  resolveN_http hf d.toNat u v h

/-- Witness for C9: the chain oracle is anchored-faithful and its resolved
video URL indeed starts with `http`. -/
theorem c9_witness :
    AnchoredFetch (chainFetch 1) ∧ pyStarts "https://v/a.mp4" "http" = true :=
  ⟨chainFetch_anchored 1,
   c9_returned_url_starts_with_http (chainFetch 1) (chainFetch_anchored 1) 2
     (chainUrl 0) "https://v/a.mp4" (by rfl)⟩

/-- Claim C10: the early rejection is substring-based, not end-of-path
based: for every positive depth, a URL whose lowercase form contains a
non-video extension token or a static-asset path keyword anywhere is
rejected with nothing and no fetch — even if it ends in `.mp4`. -/
theorem c10_substring_rejection (f : Fetch) (u : String) (d : Int)
    (hd : 0 < d)
    (h : (∃ t ∈ non_video_extensions, pyIn t (lowerStr u) = true) ∨
         (∃ t ∈ non_video_keywords, pyIn t (lowerStr u) = true)) :
    resolve_embed_to_direct f u d = (Except.ok none, []) := by
  unfold resolve_embed_to_direct
  obtain ⟨n, hn⟩ : ∃ n, d.toNat = n + 1 := ⟨d.toNat - 1, by omega⟩
  rw [hn, resolveN_succ]
  rcases h with ⟨t, hm, ht⟩ | ⟨t, hm, ht⟩
  · have hx : pyInAny (lowerStr u) non_video_extensions = true := pyInAny_of_mem hm ht
    have htop : resolveTop f (fun v => resolveN f n v) u = (Except.ok none, []) := by
      unfold resolveTop
      rw [if_pos hx]
    rw [htop]
  · have hx2 : pyInAny (lowerStr u) non_video_keywords = true := pyInAny_of_mem hm ht
    by_cases hx1 : pyInAny (lowerStr u) non_video_extensions = true
    · have htop : resolveTop f (fun v => resolveN f n v) u = (Except.ok none, []) := by
        unfold resolveTop
        rw [if_pos hx1]
      rw [htop]
    · have htop : resolveTop f (fun v => resolveN f n v) u = (Except.ok none, []) := by
        unfold resolveTop
        rw [if_neg hx1, if_pos hx2]
      rw [htop]

/-- Witness for C10: `https://h/static/v.mp4` ends in `.mp4` yet contains
`/static/` and is rejected without any fetch. -/
theorem c10_witness :
    (0 : Int) < 1 ∧ pyIn "/static/" (lowerStr "https://h/static/v.mp4") = true ∧
    resolve_embed_to_direct constEmptyFetch "https://h/static/v.mp4" 1
      = (Except.ok none, []) :=
  ⟨by decide, by decide,
   c10_substring_rejection constEmptyFetch "https://h/static/v.mp4" 1 (by decide)
     (Or.inr ⟨"/static/", by decide, by decide⟩)⟩

/-! ## Sanity evaluations of the model -/

example : chainDecode (chainUrl 0) = some 0 := by decide
example : chainDecode (chainUrl 2) = some 2 := by decide
example : resolveVal (fun _ => Except.ok empty200) "http://a/w" 2 = none := by decide
example : resolveVal (chainFetch 1) (chainUrl 0) 2 = some "https://v/a.mp4" := by decide
example : resolveVal (chainFetch 1) (chainUrl 0) 1 = none := by decide
example : resolveVal (chainFetch 0) (chainUrl 0) 1 = some "https://v/a.mp4" := by decide
example : (resolve_embed_to_direct (fun _ => Except.ok empty200) "http://a/embed/x" 2).2
    = ["http://a/embed/x", "http://a/embed/x"] := by decide
